import Mathlib

/-!
Verification of the janus typed key-value facade (C++ headers under
include/janus/) against its natural-language specification.

Shallow embedding conventions:
* a C++ `std::string` (which is a raw byte sequence) and the wire payloads
  are modelled as `CppString := List UInt8`;
* a null-able pointer (`std::shared_ptr`, `std::unique_ptr`) is modelled as
  `Option`, with `none` standing for the null pointer;
* a C++ function that may throw is modelled as returning `Except`;
* hiredis replies are modelled by the inductive `reply` mirroring the
  `REDIS_REPLY_*` type tags (error replies are consumed by `exec`, which
  throws before any command-specific handling runs, so they are omitted);
* `std::unordered_map` instances are modelled as association lists in
  iteration order, with `emplace` inserting only when the key is absent.
-/

/-- Model of a C++ byte string (`std::string` payloads and hiredis buffers). -/
abbrev CppString := List UInt8

/-- Configuration failure at facade construction
(`std::invalid_argument` in `redis_template`). -/
inductive ConfigError
  | nullDependency
  deriving Repr, DecidableEq

/-- Protocol failure: a reply shape mismatch
(`std::runtime_error("...: unexpected reply type")`). -/
inductive ProtoError
  | protocolError
  deriving Repr, DecidableEq

/-- Decode failure raised by `janus::string_serializer<T>::deserialize`. -/
inductive DecodeError
  | formatError
  | ioError
  deriving Repr, DecidableEq

/-- Out-of-range failure raised by `std::vector::at`. -/
inductive RangeError
  | outOfRange
  deriving Repr, DecidableEq

/-- Model of `class byte_array`: a wrapper around `std::vector<std::byte>`. -/
structure byte_array where
  buffer : List UInt8
  deriving Repr, DecidableEq

/-- Model of the constructor `byte_array(const std::byte *data_ptr, std::size_t length)`:
copies `length` bytes starting at the pointer (the pointed-to data is the list). -/
def byte_array.fromPtr (data_ptr : List UInt8) (length : Nat) : byte_array :=
  ⟨data_ptr.take length⟩

/-- Model of `byte_array::length()`. -/
def byte_array.length (b : byte_array) : Nat :=
  b.buffer.length

/-- Model of `byte_array::operator[]`, which is implemented with
`buffer.at(index)`: in-range access returns the byte, out-of-range access
throws `std::out_of_range`. -/
def byte_array.atIndex (b : byte_array) (index : Nat) : Except RangeError UInt8 :=
  if h : index < b.buffer.length then .ok (b.buffer.get ⟨index, h⟩)
  else .error RangeError.outOfRange

/-- The six whitespace bytes of `std::isspace` in the default C locale:
space, \t, \n, \v, \f, \r. -/
def isCppSpace (b : UInt8) : Bool :=
  b == 32 || b == 9 || b == 10 || b == 11 || b == 12 || b == 13

/-- Observable bits of `std::stringstream` state after an extraction. -/
structure StreamState where
  failbit : Bool
  eofbit : Bool
  badbit : Bool
  deriving Repr, DecidableEq

/-- Model of one formatted extraction `ss >> obj` for a default-constructed
`obj`: leading whitespace is skipped; if nothing remains, failbit and eofbit
are set and `obj` keeps its default value; otherwise `parse` consumes a value
from the remaining input (returning `none` on a format error, which sets
failbit without eofbit). -/
def formattedExtract {T : Type} (parse : CppString → Option (T × CppString)) (dflt : T)
    (input : CppString) : T × StreamState :=
  let rest := input.dropWhile isCppSpace
  if rest.isEmpty then (dflt, ⟨true, true, false⟩)
  else
    match parse rest with
    | none => (dflt, ⟨true, false, false⟩)
    | some (v, remaining) => (v, ⟨false, remaining.isEmpty, false⟩)

/-- Model of `janus::string_serializer<T>::serialize`: renders `obj` through
`operator<<` on a stringstream; `render` is the text each `T` writes. -/
def janus.string_serializer.serialize {T : Type} (render : T → CppString) (obj : T) : CppString :=
  render obj

/-- Model of `janus::string_serializer<T>::deserialize`: default-construct
`obj`, run `ss >> obj`, then throw when `(fail ∧ ¬eof)` or `bad`, else return
`obj`. -/
def janus.string_serializer.deserialize {T : Type} (parse : CppString → Option (T × CppString))
    (dflt : T) (str : CppString) : Except DecodeError T :=
  let extracted := formattedExtract parse dflt str
  if extracted.2.failbit && !extracted.2.eofbit then .error DecodeError.formatError
  else if extracted.2.badbit then .error DecodeError.ioError
  else .ok extracted.1

/-- The standard `operator>>(std::istream, std::string)`: reads the maximal
run of non-whitespace characters (never fails on a nonempty remainder). -/
def stringExtract (rest : CppString) : Option (CppString × CppString) :=
  some (rest.takeWhile (fun b => !isCppSpace b), rest.dropWhile (fun b => !isCppSpace b))

/-- `janus::string_serializer<std::string>::serialize`: `operator<<` writes
the string unchanged. -/
def strSerialize (s : CppString) : CppString :=
  janus.string_serializer.serialize id s

/-- `janus::string_serializer<std::string>::deserialize`: one token
extraction into a default-constructed (empty) string. -/
def strDeserialize (s : CppString) : Except DecodeError CppString :=
  janus.string_serializer.deserialize stringExtract [] s

/-- The round trip of the default text serializer at type `std::string`. -/
def strRoundtrip (s : CppString) : Except DecodeError CppString :=
  strDeserialize (strSerialize s)

/-- Model of `string_serializer_adapter<T>::serialize`: renders the text and
copies it into a `byte_array` via `(text.data(), text.size())` — a pointer
plus explicit length, not a NUL-terminated scan. -/
def string_serializer_adapter.serialize {T : Type} (render : T → CppString) (obj : T) :
    byte_array :=
  let text := janus.string_serializer.serialize render obj
  byte_array.fromPtr text text.length

/-- Model of `string_serializer_adapter<T>::deserialize`: rebuilds the text
via `std::string(char_ptr, bytes.length())` — again length-based — and runs
the text deserializer. -/
def string_serializer_adapter.deserialize {T : Type} (parse : CppString → Option (T × CppString))
    (dflt : T) (bytes : byte_array) : Except DecodeError T :=
  let text := bytes.buffer.take bytes.length
  janus.string_serializer.deserialize parse dflt text

/-- Every byte of `s` fails the predicate `p`. -/
def allNot (p : UInt8 → Bool) (s : CppString) : Prop :=
  ∀ b ∈ s, p b = false

theorem dropWhile_eq_self_of_allNot (p : UInt8 → Bool) :
    ∀ s : CppString, allNot p s → s.dropWhile p = s := by
  intro s h
  cases s with
  | nil => rfl
  | cons a t =>
    have ha : p a = false := h a (List.mem_cons_self a t)
    simp [List.dropWhile, ha]

theorem takeWhile_eq_self_of_allNot (p : UInt8 → Bool) :
    ∀ s : CppString, allNot p s → s.takeWhile (fun b => !p b) = s := by
  intro s h
  induction s with
  | nil => rfl
  | cons a t ih =>
    have ha : p a = false := h a (List.mem_cons_self a t)
    have ht : allNot p t := fun b hb => h b (List.mem_cons_of_mem a hb)
    simp [List.takeWhile, ha, ih ht]

theorem dropWhileNeg_eq_nil_of_allNot (p : UInt8 → Bool) :
    ∀ s : CppString, allNot p s → s.dropWhile (fun b => !p b) = [] := by
  intro s h
  induction s with
  | nil => rfl
  | cons a t ih =>
    have ha : p a = false := h a (List.mem_cons_self a t)
    have ht : allNot p t := fun b hb => h b (List.mem_cons_of_mem a hb)
    simp [List.dropWhile, ha, ih ht]

/-- C10: `byte_array::operator[]` is bounds-checked: an index below
`length()` yields the byte at that position, and an index at or beyond
`length()` raises the out-of-range error instead of undefined behavior. -/
theorem byte_array_index_bounds_checked (b : byte_array) (i : Nat) :
    (i < b.length → b.atIndex i = .ok (b.buffer.getD i 0))
    ∧ (b.length ≤ i → b.atIndex i = .error RangeError.outOfRange) := by
  constructor
  · intro h
    have h' : i < b.buffer.length := h
    simp [byte_array.atIndex, h', List.getD_eq_getElem?_getD, List.getElem?_eq_getElem h']
  · intro h
    have h' : ¬ i < b.buffer.length := by
      simpa [byte_array.length] using not_lt.mpr h
    simp [byte_array.atIndex, h']

/-- Witness for `byte_array_index_bounds_checked` at the concrete buffer
`[7, 8]` with an in-range and an out-of-range index. -/
theorem byte_array_index_bounds_checked_witness :
    (byte_array.mk [7, 8]).atIndex 1 = .ok 8
    ∧ (byte_array.mk [7, 8]).atIndex 5 = .error RangeError.outOfRange := by
  refine ⟨?_, ?_⟩
  · have h := (byte_array_index_bounds_checked (byte_array.mk [7, 8]) 1).1 (by decide)
    simpa using h
  · exact (byte_array_index_bounds_checked (byte_array.mk [7, 8]) 5).2 (by decide)

/-- C8: the binary adapter's round trip coincides with the text serializer's
round trip: for every type `T` (given its stream rendering `render` and
stream parsing `parse`) and every value `t`, deserializing the adapter's
`byte_array` output gives exactly `deserialize(serialize(t))` of the text
serializer. The string-to-byte_array-and-back conversion is length-based on
both sides, so every byte — including NUL bytes — survives. -/
theorem adapter_roundtrip_eq_text_roundtrip {T : Type}
    (render : T → CppString) (parse : CppString → Option (T × CppString)) (dflt : T) (t : T) :
    string_serializer_adapter.deserialize parse dflt (string_serializer_adapter.serialize render t)
      = janus.string_serializer.deserialize parse dflt (janus.string_serializer.serialize render t) := by
  simp [string_serializer_adapter.deserialize, string_serializer_adapter.serialize,
    byte_array.fromPtr, byte_array.length, List.take_length]

/-- C9: `janus::string_serializer<T>::deserialize` on the empty string sets
failbit together with eofbit, so the `fail && !eof` throw-guard does not
fire and the default-constructed value is returned without error, for every
type `T` read via stream extraction. -/
theorem deserialize_empty_returns_default {T : Type}
    (parse : CppString → Option (T × CppString)) (dflt : T) :
    janus.string_serializer.deserialize parse dflt [] = .ok dflt :=
  rfl

/-- C3 counterexample: the default text serializer does not round-trip the
string "a b" (bytes `[97, 32, 98]`): stream extraction stops at the space,
so deserialization returns "a" (`[97]`), a different string. -/
theorem string_roundtrip_whitespace_fails :
    strRoundtrip [97, 32, 98] = .ok [97] ∧ ([97] : CppString) ≠ [97, 32, 98] :=
  ⟨rfl, by decide⟩

/-- C3 amended: the round-trip law `deserialize(serialize(s)) = s` holds at
type `std::string` exactly for strings containing no whitespace byte (the
empty string included); whitespace-bearing strings are truncated to their
first token. -/
theorem string_roundtrip_no_whitespace (s : CppString) (h : allNot isCppSpace s) :
    strRoundtrip s = .ok s := by
  cases s with
  | nil => rfl
  | cons a t =>
    unfold strRoundtrip strDeserialize strSerialize janus.string_serializer.deserialize
      janus.string_serializer.serialize formattedExtract
    simp only [id_eq, dropWhile_eq_self_of_allNot isCppSpace (a :: t) h, List.isEmpty_cons,
      stringExtract, takeWhile_eq_self_of_allNot isCppSpace (a :: t) h,
      dropWhileNeg_eq_nil_of_allNot isCppSpace (a :: t) h]
    rfl

/-- Witness for `string_roundtrip_no_whitespace` at the whitespace-free
string "hi" (bytes `[104, 105]`). -/
theorem string_roundtrip_no_whitespace_witness :
    strRoundtrip [104, 105] = .ok [104, 105] :=
  string_roundtrip_no_whitespace [104, 105] (by unfold allNot; decide)

/-- Model of a hiredis reply, mirroring the `REDIS_REPLY_*` tags that the
command handlers in `redis_connection` inspect. `REDIS_REPLY_ERROR` is
absent because `exec`/`execv` throw on it before any handler runs. -/
inductive reply
  | integer (n : Int)
  | status (s : CppString)
  | nil
  | bulk (s : CppString)
  | array (elements : List reply)

/-- The status text "OK". -/
def okStatus : CppString := [79, 75]

/-- Reply classification: `REDIS_REPLY_INTEGER`. -/
def isIntegerReply : reply → Bool
  | .integer _ => true
  | _ => false

/-- Reply classification: `REDIS_REPLY_STATUS`. -/
def isStatusReply : reply → Bool
  | .status _ => true
  | _ => false

/-- Reply classification: `REDIS_REPLY_NIL` or `REDIS_REPLY_STRING`, the two
shapes a value-returning read expects. -/
def isTextReply : reply → Bool
  | .nil => true
  | .bulk _ => true
  | _ => false

/-- The shared reply handling of the integer-returning commands of
`redis_connection` (single-key DEL, TTL, PTTL, INCRBY, DECRBY, APPEND, HDEL,
LPUSH, RPUSH, LLEN, SADD, SREM, SCARD, ZADD, ZREM): return the integer,
throw "unexpected reply type" otherwise. -/
def intReplyOrThrow : reply → Except ProtoError Int
  | .integer n => .ok n
  | _ => .error ProtoError.protocolError

/-- Reply handling of `redis_connection::del(const std::string &)`. -/
def redis_connection.handle_del_one : reply → Except ProtoError Int :=
  intReplyOrThrow

/-- Reply handling of `redis_connection::ttl`. -/
def redis_connection.handle_ttl : reply → Except ProtoError Int :=
  intReplyOrThrow

/-- Reply handling of `redis_connection::incr` (INCRBY). -/
def redis_connection.handle_incr : reply → Except ProtoError Int :=
  intReplyOrThrow

/-- Model of `redis_connection::del(const std::vector<std::string> &)`:
empty input short-circuits to 0; otherwise the reply is handled by
`(r->type == REDIS_REPLY_INTEGER) ? r->integer : 0` — a mismatched reply is
coerced to 0, not thrown. -/
def redis_connection.handle_del_many (keys : List CppString) (r : reply) :
    Except ProtoError Int :=
  if keys.isEmpty then .ok 0
  else
    match r with
    | .integer n => .ok n
    | _ => .ok 0

/-- Model of the reply handling of `redis_connection::set`: true exactly on
a status reply equal to "OK"; any other reply (status or not) yields false
with no throw. -/
def redis_connection.handle_set (r : reply) : Bool :=
  match r with
  | .status s => decide (s = okStatus)
  | _ => false

/-- Model of the reply handling of `redis_connection::get`: nil gives an
empty optional, a string reply gives the payload, and any other reply is
also coerced to the empty optional (no throw). -/
def redis_connection.handle_get : reply → Option CppString
  | .nil => none
  | .bulk s => some s
  | _ => none

/-- Model of the reply handling of single-field
`redis_connection::hget(key, hash_key)`: nil is an empty optional, a string
reply is the payload, anything else throws. -/
def redis_connection.handle_hget_one : reply → Except ProtoError (Option CppString)
  | .nil => .ok none
  | .bulk s => .ok (some s)
  | _ => .error ProtoError.protocolError

/-- C1 counterexample: DEL over a nonempty key vector expects an integer
reply, yet `redis_connection::del` maps the mismatched status reply "OK" to
the result 0 instead of raising a ProtocolError — a silent coercion to a
default value. -/
theorem del_many_status_reply_coerced_to_zero :
    redis_connection.handle_del_many [[107]] (reply.status okStatus) = .ok 0 :=
  rfl

/-- C1 amended: reply-shape mismatches are raised as ProtocolError by the
integer-returning single-key commands (del, ttl, incr, ...) and by
single-field hget, but multi-key del coerces a mismatched reply to 0, set
coerces any non-status reply to false, and get coerces any mismatched reply
to an empty optional. -/
theorem reply_mismatch_error_policy (r : reply) (keys : List CppString) :
    (isIntegerReply r = false →
        redis_connection.handle_del_one r = .error ProtoError.protocolError
      ∧ redis_connection.handle_ttl r = .error ProtoError.protocolError
      ∧ redis_connection.handle_incr r = .error ProtoError.protocolError
      ∧ (keys ≠ [] → redis_connection.handle_del_many keys r = .ok 0))
    ∧ (isTextReply r = false →
        redis_connection.handle_hget_one r = .error ProtoError.protocolError)
    ∧ (isStatusReply r = false → redis_connection.handle_set r = false)
    ∧ (isTextReply r = false → redis_connection.handle_get r = none) := by
  refine ⟨fun hInt => ⟨?_, ?_, ?_, fun hk => ?_⟩, fun hText => ?_, fun hStatus => ?_,
    fun hText2 => ?_⟩
  all_goals cases r <;>
    simp_all [redis_connection.handle_del_one, redis_connection.handle_ttl,
      redis_connection.handle_incr, redis_connection.handle_del_many,
      redis_connection.handle_hget_one, redis_connection.handle_set,
      redis_connection.handle_get, intReplyOrThrow, isIntegerReply, isTextReply,
      isStatusReply, List.isEmpty_iff]

/-- Witness for `reply_mismatch_error_policy` at the status reply "OK" and
the singleton key vector: del raises, hget raises, and get coerces the
mismatched reply to the empty optional. -/
theorem reply_mismatch_error_policy_witness :
    redis_connection.handle_del_one (reply.status okStatus)
        = .error ProtoError.protocolError
    ∧ redis_connection.handle_hget_one (reply.status okStatus)
        = .error ProtoError.protocolError
    ∧ redis_connection.handle_get (reply.status okStatus) = none :=
  ⟨((reply_mismatch_error_policy (reply.status okStatus) [[107]]).1 rfl).1,
   (reply_mismatch_error_policy (reply.status okStatus) [[107]]).2.1 rfl,
   (reply_mismatch_error_policy (reply.status okStatus) [[107]]).2.2.2 rfl⟩

/-- A primitive store command issued by `redis_connection` (one entry per
network round trip). Sorted-set scores are omitted from `zaddCmd`: they play
no role in the control flow under study. -/
inductive StoreCmd
  | delCmd (keys : List CppString)
  | hmgetCmd (key : CppString) (fields : List CppString)
  | hsetCmd (key : CppString) (pairs : List (CppString × CppString))
  | hdelCmd (key : CppString) (fields : List CppString)
  | lpushCmd (key : CppString) (values : List CppString)
  | rpushCmd (key : CppString) (values : List CppString)
  | llenCmd (key : CppString)
  | saddCmd (key : CppString) (members : List CppString)
  | sremCmd (key : CppString) (members : List CppString)
  | zaddCmd (key : CppString) (members : List CppString)
  | zremCmd (key : CppString) (members : List CppString)
  | sinterCmd (keys : List CppString)
  deriving Repr, DecidableEq

/-- Round trips issued by `redis_connection::del(const std::vector &)`:
empty input returns before `execv`. -/
def redis_connection.del_many_trips (keys : List CppString) : List StoreCmd :=
  if keys.isEmpty then [] else [StoreCmd.delCmd keys]

/-- Round trips issued by the batch overload of `redis_connection::hget`
(HMGET): an empty field map returns immediately. -/
def redis_connection.hget_batch_trips (key : CppString) (fields : List CppString) :
    List StoreCmd :=
  if fields.isEmpty then [] else [StoreCmd.hmgetCmd key fields]

/-- Round trips issued by the map overload of `redis_connection::hset`:
an empty map returns false immediately. -/
def redis_connection.hset_many_trips (key : CppString) (pairs : List (CppString × CppString)) :
    List StoreCmd :=
  if pairs.isEmpty then [] else [StoreCmd.hsetCmd key pairs]

/-- Round trips issued by the vector overload of `redis_connection::hdel`:
an empty field vector returns 0 immediately. -/
def redis_connection.hdel_many_trips (key : CppString) (fields : List CppString) :
    List StoreCmd :=
  if fields.isEmpty then [] else [StoreCmd.hdelCmd key fields]

/-- Round trips issued by the vector overload of `redis_connection::lpush`:
on an empty value vector the method returns `llen(key)`, which issues an
LLEN round trip. -/
def redis_connection.lpush_trips (key : CppString) (values : List CppString) :
    List StoreCmd :=
  if values.isEmpty then [StoreCmd.llenCmd key] else [StoreCmd.lpushCmd key values]

/-- Round trips issued by the vector overload of `redis_connection::rpush`:
on an empty value vector the method returns `llen(key)`, which issues an
LLEN round trip. -/
def redis_connection.rpush_trips (key : CppString) (values : List CppString) :
    List StoreCmd :=
  if values.isEmpty then [StoreCmd.llenCmd key] else [StoreCmd.rpushCmd key values]

/-- Round trips issued by `redis_connection::sadd`: empty member vector
returns 0 immediately. -/
def redis_connection.sadd_trips (key : CppString) (members : List CppString) :
    List StoreCmd :=
  if members.isEmpty then [] else [StoreCmd.saddCmd key members]

/-- Round trips issued by `redis_connection::srem`: empty member vector
returns 0 immediately. -/
def redis_connection.srem_trips (key : CppString) (members : List CppString) :
    List StoreCmd :=
  if members.isEmpty then [] else [StoreCmd.sremCmd key members]

/-- Round trips issued by `redis_connection::zadd`: empty member map returns
0 immediately. -/
def redis_connection.zadd_trips (key : CppString) (members : List CppString) :
    List StoreCmd :=
  if members.isEmpty then [] else [StoreCmd.zaddCmd key members]

/-- Round trips issued by `redis_connection::zrem`: empty member vector
returns 0 immediately. -/
def redis_connection.zrem_trips (key : CppString) (members : List CppString) :
    List StoreCmd :=
  if members.isEmpty then [] else [StoreCmd.zremCmd key members]

/-- Round trips issued by `redis_connection::sinter`: empty key vector
returns the empty vector immediately. -/
def redis_connection.sinter_trips (keys : List CppString) : List StoreCmd :=
  if keys.isEmpty then [] else [StoreCmd.sinterCmd keys]

/-- Reply handling of the vector overload of `redis_connection::hdel`:
empty input short-circuits to 0, otherwise an integer reply is expected. -/
def redis_connection.handle_hdel_many (fields : List CppString) (r : reply) :
    Except ProtoError Int :=
  if fields.isEmpty then .ok 0 else intReplyOrThrow r

/-- Reply handling of `redis_connection::sadd`. -/
def redis_connection.handle_sadd (members : List CppString) (r : reply) :
    Except ProtoError Int :=
  if members.isEmpty then .ok 0 else intReplyOrThrow r

/-- Reply handling of `redis_connection::srem`. -/
def redis_connection.handle_srem (members : List CppString) (r : reply) :
    Except ProtoError Int :=
  if members.isEmpty then .ok 0 else intReplyOrThrow r

/-- Reply handling of `redis_connection::zadd`. -/
def redis_connection.handle_zadd (members : List CppString) (r : reply) :
    Except ProtoError Int :=
  if members.isEmpty then .ok 0 else intReplyOrThrow r

/-- Reply handling of `redis_connection::zrem`. -/
def redis_connection.handle_zrem (members : List CppString) (r : reply) :
    Except ProtoError Int :=
  if members.isEmpty then .ok 0 else intReplyOrThrow r

/-- Reply handling of the map overload of `redis_connection::hset`: empty
map returns false; otherwise true exactly on a non-negative integer reply
(mismatches coerce to false). -/
def redis_connection.handle_hset_many (pairs : List (CppString × CppString)) (r : reply) :
    Bool :=
  if pairs.isEmpty then false
  else
    match r with
    | .integer n => decide (0 ≤ n)
    | _ => false

/-- String elements of an array reply, in order; the source loop silently
skips non-string elements. -/
def collectBulk (elements : List reply) : List CppString :=
  elements.filterMap fun e =>
    match e with
    | .bulk s => some s
    | _ => none

/-- Reply handling of `redis_connection::sinter`: empty key vector returns
the empty vector; an array reply collects its string elements; nil is an
empty vector; anything else throws. -/
def redis_connection.handle_sinter (keys : List CppString) (r : reply) :
    Except ProtoError (List CppString) :=
  if keys.isEmpty then .ok []
  else
    match r with
    | .array es => .ok (collectBulk es)
    | .nil => .ok []
    | _ => .error ProtoError.protocolError

/-- C4 counterexample: `redis_connection::lpush` given an empty value vector
does not short-circuit locally — it calls `llen(key)`, issuing one LLEN
round trip to the store. -/
theorem lpush_empty_issues_llen_roundtrip :
    redis_connection.lpush_trips [107] [] = [StoreCmd.llenCmd [107]]
    ∧ redis_connection.lpush_trips [107] [] ≠ [] := by
  exact ⟨rfl, by decide⟩

/-- C4 amended: every batch operation given an empty input collection
returns its no-op/zero result (0, false, or the empty vector) — and all of
them except the list pushes do so without issuing any round trip; the list
pushes `lpush`/`rpush` instead issue exactly one LLEN round trip and return
the list's current length. -/
theorem empty_batch_shortcircuit (key : CppString) (r : reply) :
    redis_connection.del_many_trips [] = []
    ∧ redis_connection.handle_del_many [] r = .ok 0
    ∧ redis_connection.hget_batch_trips key [] = []
    ∧ redis_connection.hset_many_trips key [] = []
    ∧ redis_connection.handle_hset_many [] r = false
    ∧ redis_connection.hdel_many_trips key [] = []
    ∧ redis_connection.handle_hdel_many [] r = .ok 0
    ∧ redis_connection.sadd_trips key [] = []
    ∧ redis_connection.handle_sadd [] r = .ok 0
    ∧ redis_connection.srem_trips key [] = []
    ∧ redis_connection.handle_srem [] r = .ok 0
    ∧ redis_connection.zadd_trips key [] = []
    ∧ redis_connection.handle_zadd [] r = .ok 0
    ∧ redis_connection.zrem_trips key [] = []
    ∧ redis_connection.handle_zrem [] r = .ok 0
    ∧ redis_connection.sinter_trips [] = []
    ∧ redis_connection.handle_sinter [] r = .ok []
    ∧ redis_connection.lpush_trips key [] = [StoreCmd.llenCmd key]
    ∧ redis_connection.rpush_trips key [] = [StoreCmd.llenCmd key] := by
  refine ⟨rfl, rfl, rfl, rfl, rfl, rfl, rfl, rfl, rfl, rfl, rfl, rfl, rfl, rfl, rfl,
    rfl, rfl, rfl, rfl⟩

/-- The GET reply a well-behaved store produces for a key: the stored value
as a string reply, or nil when the key was never set. -/
def getReply (store : CppString → Option CppString) (key : CppString) : reply :=
  match store key with
  | some v => reply.bulk v
  | none => reply.nil

/-- Model of `default_value_operations<K, V>::get`: serialize the key, run
the connection's GET, and deserialize only a present value; an absent value
is returned as an explicit empty optional. `dv` (the value deserializer) may
throw a DecodeError. -/
def default_value_operations.get {K V : Type} (sk : K → CppString)
    (dv : CppString → Except DecodeError V) (store : CppString → Option CppString)
    (key : K) : Except DecodeError (Option V) :=
  match redis_connection.handle_get (getReply store (sk key)) with
  | some s => (dv s).map some
  | none => .ok none

/-- C6: the typed `get` on a never-set key (the store holds nothing at the
serialized key) returns the explicit empty optional — no error is raised
(even under a value deserializer that always throws) and no
default-constructed value is produced; the connection's nil reply is
surfaced as emptiness at the typed boundary. -/
theorem typed_get_absent_key_empty {K V : Type} (sk : K → CppString)
    (dv : CppString → Except DecodeError V) (store : CppString → Option CppString)
    (key : K) (habsent : store (sk key) = none) :
    default_value_operations.get sk dv store key = .ok none := by
  simp [default_value_operations.get, getReply, habsent, redis_connection.handle_get]

/-- Witness for `typed_get_absent_key_empty`: the empty store, the identity
key serializer, and an always-throwing value deserializer still produce the
empty optional, not an error. -/
theorem typed_get_absent_key_empty_witness :
    default_value_operations.get (K := CppString) (V := CppString) id
      (fun _ => .error DecodeError.formatError) (fun _ => none) [107] = .ok none :=
  typed_get_absent_key_empty id (fun _ => .error DecodeError.formatError) (fun _ => none)
    [107] rfl

/-- State of a constructed `redis_template<K, V>` facade. The dependency
types are abstract; the five view slots model the `std::unique_ptr` members
(`none` = the null unique_ptr). -/
structure redis_template_state (C SK SV : Type) where
  connection : C
  key_serializer : SK
  value_serializer : SV
  value_ops : Option Unit
  hash_ops : Option Unit
  list_ops : Option Unit
  set_ops : Option Unit
  zset_ops : Option Unit

/-- Model of the `redis_template` constructor: it throws
`std::invalid_argument` when the connection or either serializer pointer is
null; on success it constructs `default_value_operations` into `value_ops`,
while the lines constructing the hash/list/set/zset views are commented out
in the source, leaving those four unique_ptrs null. -/
def redis_template.construct (C SK SV : Type) (conn : Option C) (ks : Option SK)
    (vs : Option SV) : Except ConfigError (redis_template_state C SK SV) :=
  match conn, ks, vs with
  | some c, some k, some v =>
      .ok { connection := c, key_serializer := k, value_serializer := v,
            value_ops := some (), hash_ops := none, list_ops := none,
            set_ops := none, zset_ops := none }
  | _, _, _ => .error ConfigError.nullDependency

/-- Model of `redis_template::ops_for_value` (`return *value_ops`):
dereferencing the unique_ptr; `none` would be a null dereference. -/
def redis_template_state.ops_for_value {C SK SV : Type} (t : redis_template_state C SK SV) :
    Option Unit := t.value_ops

/-- Model of `redis_template::ops_for_hash` (`return *hash_ops`). -/
def redis_template_state.ops_for_hash {C SK SV : Type} (t : redis_template_state C SK SV) :
    Option Unit := t.hash_ops

/-- Model of `redis_template::ops_for_list` (`return *list_ops`). -/
def redis_template_state.ops_for_list {C SK SV : Type} (t : redis_template_state C SK SV) :
    Option Unit := t.list_ops

/-- Model of `redis_template::ops_for_set` (`return *set_ops`). -/
def redis_template_state.ops_for_set {C SK SV : Type} (t : redis_template_state C SK SV) :
    Option Unit := t.set_ops

/-- Model of `redis_template::ops_for_zset` (`return *zset_ops`). -/
def redis_template_state.ops_for_zset {C SK SV : Type} (t : redis_template_state C SK SV) :
    Option Unit := t.zset_ops

/-- State of a constructed `valkey_template<K, V, HK, HV>` facade: the five
injected dependencies are stored as given (they may be null), and all six
view slots are filled unconditionally. -/
structure valkey_template_state (C SK SV SHK SHV : Type) where
  connection : Option C
  key_serializer : Option SK
  value_serializer : Option SV
  hash_key_serializer : Option SHK
  hash_value_serializer : Option SHV
  key_ops : Option Unit
  value_ops : Option Unit
  hash_ops : Option Unit
  list_ops : Option Unit
  set_ops : Option Unit
  zset_ops : Option Unit

/-- Model of the `valkey_template` constructor: it performs no null check of
any dependency — it stores the five (possibly null) pointers and
unconditionally make_uniques all six views, so it never fails. -/
def valkey_template.construct (C SK SV SHK SHV : Type) (conn : Option C) (ks : Option SK)
    (vs : Option SV) (hks : Option SHK) (hvs : Option SHV) :
    valkey_template_state C SK SV SHK SHV :=
  { connection := conn, key_serializer := ks, value_serializer := vs,
    hash_key_serializer := hks, hash_value_serializer := hvs,
    key_ops := some (), value_ops := some (), hash_ops := some (),
    list_ops := some (), set_ops := some (), zset_ops := some () }

/-- True exactly when the `Except` is an error. -/
def exceptIsError {E A : Type} : Except E A → Bool
  | .error _ => true
  | .ok _ => false

/-- C2 counterexample: constructing a `valkey_template` with a null
connection and all-null serializers raises no ConfigurationError — a facade
object holding null dependencies is created, so the "fail fast at
construction, never create a partially-valid facade" contract does not hold
for the valkey facade. -/
theorem valkey_template_constructs_with_null_deps :
    (valkey_template.construct Unit Unit Unit Unit Unit
      none none none none none).connection = none
    ∧ (valkey_template.construct Unit Unit Unit Unit Unit
      none none none none none).key_serializer = none :=
  ⟨rfl, rfl⟩

/-- C2 amended: the `redis_template` facade validates its three dependencies
at construction — it fails (with `std::invalid_argument` serving as the
ConfigurationError) exactly when the connection or a serializer is null, so
no partially-valid `redis_template` ever exists; the `valkey_template`
facade performs no such validation and returns a facade object carrying
whatever (possibly null) dependencies it was given. -/
theorem facade_null_dependency_validation {C SK SV SHK SHV : Type} (conn : Option C)
    (ks : Option SK) (vs : Option SV) (hks : Option SHK) (hvs : Option SHV) :
    exceptIsError (redis_template.construct C SK SV conn ks vs)
        = (conn.isNone || ks.isNone || vs.isNone)
    ∧ (valkey_template.construct C SK SV SHK SHV conn ks vs hks hvs).connection = conn
    ∧ (valkey_template.construct C SK SV SHK SHV conn ks vs hks hvs).key_serializer = ks := by
  refine ⟨?_, rfl, rfl⟩
  cases conn <;> cases ks <;> cases vs <;> rfl

/-- C5: evaluation of `redis_template` at a fully valid input shows the bug:
construction succeeds but wires only the value view; the hash, list, set and
sorted-set view slots stay null (their construction is commented out), so
`ops_for_hash()`/`ops_for_list()`/`ops_for_set()`/`ops_for_zset()` —
which the repository's own hash/list/set/zset tests call — dereference a
null `std::unique_ptr`. -/
theorem redis_template_missing_view_instances :
    (redis_template.construct Unit Unit Unit
        (some ()) (some ()) (some ())).map
      (fun t => (t.ops_for_value, t.ops_for_hash, t.ops_for_list, t.ops_for_set,
                 t.ops_for_zset))
      = .ok (some (), none, none, none, none) :=
  rfl

/-- Model of `std::unordered_map::emplace` on an association list in
iteration order: insert only when the key is absent. -/
def emplace {α β : Type} [DecidableEq α] (m : List (α × β)) (k : α) (v : β) :
    List (α × β) :=
  if m.any (fun p => decide (p.1 = k)) then m else m ++ [(k, v)]

/-- The first whitespace-delimited token of a byte string — the value
`strDeserialize` extracts. -/
def firstToken (s : CppString) : CppString :=
  (s.dropWhile isCppSpace).takeWhile (fun b => !isCppSpace b)

theorem strDeserialize_eq_firstToken (s : CppString) :
    strDeserialize s = .ok (firstToken s) := by
  unfold strDeserialize janus.string_serializer.deserialize formattedExtract firstToken
    stringExtract
  cases h : s.dropWhile isCppSpace with
  | nil => simp [h]
  | cons a t => simp [h]

/-- Model of the write-back loop of the batch
`redis_connection::hget(key, hash_map)`: each array element updates the
map entry at the matching position (string → present value, nil → explicit
absence, anything else throws); entries beyond the reply keep their previous
values, elements beyond the map are ignored. -/
def updateFromReply :
    List (CppString × Option CppString) → List reply →
      Except ProtoError (List (CppString × Option CppString))
  | m, [] => .ok m
  | [], _ => .ok []
  | (k, _) :: m, r :: rs =>
    match r with
    | .bulk s => (updateFromReply m rs).map (fun t => (k, some s) :: t)
    | .nil => (updateFromReply m rs).map (fun t => (k, none) :: t)
    | _ => .error ProtoError.protocolError

/-- Model of the batch overload of `redis_connection::hget` (HMGET): an
empty field map returns at once; a non-array reply silently leaves the map
untouched; an array reply is written back entry by entry. -/
def redis_connection.hget_batch (m : List (CppString × Option CppString)) (r : reply) :
    Except ProtoError (List (CppString × Option CppString)) :=
  if m.isEmpty then .ok m
  else
    match r with
    | .array es => updateFromReply m es
    | _ => .ok m

/-- The per-field element of a canonical HMGET reply. -/
def fieldReply (v : Option CppString) : reply :=
  match v with
  | some s => reply.bulk s
  | none => reply.nil

/-- The HMGET reply a well-behaved store produces for the fields of `m`:
one element per requested field, in iteration order. -/
def hmgetReply (hash : CppString → Option CppString)
    (m : List (CppString × Option CppString)) : reply :=
  reply.array (m.map fun p => fieldReply (hash p.1))

/-- The serialized field map `default_hash_operations<K, V>::hget` builds
before delegating: every requested field is emplaced with an absent value. -/
def default_hash_operations.serialized_fields {K : Type} (sk : K → CppString)
    (fields : List K) : List (CppString × Option CppString) :=
  fields.foldl (fun m f => emplace m (sk f) none) []

/-- Model of the batch `default_hash_operations<K, V>::hget`: serialize the
requested fields into a fresh map, run the connection's batch HMGET against
the store, then clear the typed map and re-emplace each entry under the
deserialized field key, deserializing present values. -/
def default_hash_operations.hget_batch {K V : Type} [DecidableEq K] (sk : K → CppString)
    (dk : CppString → K) (dv : CppString → V) (hash : CppString → Option CppString)
    (fields : List K) : Except ProtoError (List (K × Option V)) :=
  match redis_connection.hget_batch (default_hash_operations.serialized_fields sk fields)
      (hmgetReply hash (default_hash_operations.serialized_fields sk fields)) with
  | .error e => .error e
  | .ok sm2 => .ok (sm2.foldl (fun acc p => emplace acc (dk p.1) (p.2.map dv)) [])

theorem foldl_emplace_fresh {K2 K β : Type} [DecidableEq K] (keyf : K2 → K) (valf : K2 → β) :
    ∀ (l : List K2) (acc : List (K × β)),
      (l.map keyf).Nodup →
      (∀ a ∈ l, acc.any (fun p => decide (p.1 = keyf a)) = false) →
      l.foldl (fun m a => emplace m (keyf a) (valf a)) acc
        = acc ++ l.map (fun a => (keyf a, valf a)) := by
  intro l
  induction l with
  | nil => intro acc _ _; simp
  | cons a l ih =>
    intro acc hnd hfresh
    have hfa : acc.any (fun p => decide (p.1 = keyf a)) = false :=
      hfresh a (List.mem_cons_self a l)
    have hcons : (∀ x ∈ l, ¬ keyf x = keyf a) ∧ (l.map keyf).Nodup := by
      simpa [List.map_cons] using hnd
    have hstep : emplace acc (keyf a) (valf a) = acc ++ [(keyf a, valf a)] := by
      simp [emplace, hfa]
    have hfresh' : ∀ b ∈ l,
        (acc ++ [(keyf a, valf a)]).any (fun p => decide (p.1 = keyf b)) = false := by
      intro b hb
      have h1 : acc.any (fun p => decide (p.1 = keyf b)) = false :=
        hfresh b (List.mem_cons_of_mem a hb)
      have h2 : ¬ keyf a = keyf b := fun he => hcons.1 b hb he.symm
      simp [List.any_append, h1, h2]
    calc (a :: l).foldl (fun m x => emplace m (keyf x) (valf x)) acc
        = l.foldl (fun m x => emplace m (keyf x) (valf x)) (acc ++ [(keyf a, valf a)]) := by
          rw [List.foldl_cons, hstep]
      _ = (acc ++ [(keyf a, valf a)]) ++ l.map (fun x => (keyf x, valf x)) :=
          ih _ hcons.2 hfresh'
      _ = acc ++ (a :: l).map (fun x => (keyf x, valf x)) := by simp

theorem updateFromReply_canonical (hash : CppString → Option CppString) :
    ∀ m : List (CppString × Option CppString),
      updateFromReply m (m.map fun p => fieldReply (hash p.1))
        = .ok (m.map fun p => (p.1, hash p.1)) := by
  intro m
  induction m with
  | nil => rfl
  | cons p m ih =>
    obtain ⟨k, v⟩ := p
    simp only [fieldReply] at ih
    cases h : hash k <;> simp [updateFromReply, fieldReply, h, ih] <;> rfl

/-- C7 counterexample: at the string-bound facade (identity key serializer,
token-extracting key deserializer), the typed batch hget over the two
distinct requested fields "a b" and "a c" returns a single entry: both
fields deserialize back to the token "a" and collapse under emplace. Output
cardinality 1 differs from requested cardinality 2. -/
theorem typed_hget_batch_field_collapse :
    default_hash_operations.hget_batch (K := CppString) (V := CppString) id firstToken id
        (fun _ => none) [[97, 32, 98], [97, 32, 99]]
      = .ok [([97], none)]
    ∧ ([[97, 32, 98], [97, 32, 99]] : List CppString).length = 2 := by
  exact ⟨rfl, rfl⟩

/-- C7 amended: the typed batch hget returns exactly one entry per requested
field — in order, keyed by the field itself, with stored-hash misses marked
as explicit absence — provided the requested fields are distinct and the key
serializer round-trips each of them (`dk (sk f) = f`); with the default text
serializer the proviso fails for fields containing whitespace, and distinct
fields can collapse into one entry. -/
theorem typed_hget_batch_cardinality {K V : Type} [DecidableEq K] (sk : K → CppString)
    (dk : CppString → K) (dv : CppString → V) (hash : CppString → Option CppString)
    (fields : List K) (hnd : fields.Nodup) (hrt : ∀ f ∈ fields, dk (sk f) = f) :
    default_hash_operations.hget_batch sk dk dv hash fields
      = .ok (fields.map fun f => (f, (hash (sk f)).map dv)) := by
  have hskinj : ∀ x ∈ fields, ∀ y ∈ fields, sk x = sk y → x = y := by
    intro x hx y hy he
    rw [← hrt x hx, ← hrt y hy, he]
  have hndsk : (fields.map sk).Nodup := List.Nodup.map_on hskinj hnd
  have hsm : default_hash_operations.serialized_fields sk fields
      = fields.map (fun f => (sk f, (none : Option CppString))) := by
    unfold default_hash_operations.serialized_fields
    simpa using foldl_emplace_fresh sk (fun _ => (none : Option CppString)) fields []
      hndsk (fun a _ => rfl)
  have hconn : redis_connection.hget_batch
        (fields.map (fun f => (sk f, (none : Option CppString))))
        (hmgetReply hash (fields.map (fun f => (sk f, (none : Option CppString)))))
      = .ok (fields.map fun f => (sk f, hash (sk f))) := by
    cases fields with
    | nil => rfl
    | cons f0 rest =>
      have h := updateFromReply_canonical hash
        ((f0 :: rest).map (fun f => (sk f, (none : Option CppString))))
      simp only [redis_connection.hget_batch, hmgetReply, List.map_cons, List.isEmpty_cons,
        Bool.false_eq_true, if_false] at h ⊢
      rw [h]
      simp [List.map_map, Function.comp]
  have hkeymap : fields.map (fun f => dk (sk f)) = fields := by
    have h1 : fields.map (fun f => dk (sk f)) = fields.map id :=
      List.map_congr_left (fun f hf => hrt f hf)
    simpa using h1
  have hfold : (fields.map fun f => (sk f, hash (sk f))).foldl
        (fun acc p => emplace acc (dk p.1) (p.2.map dv)) []
      = fields.map fun f => (f, (hash (sk f)).map dv) := by
    rw [List.foldl_map]
    have hfresh : ∀ a ∈ fields,
        (([] : List (K × Option V)).any (fun p => decide (p.1 = dk (sk a)))) = false :=
      fun a _ => rfl
    have h2 := foldl_emplace_fresh (fun f => dk (sk f))
      (fun f => (hash (sk f)).map dv) fields [] (by rw [hkeymap]; exact hnd) hfresh
    rw [h2]
    simp only [List.nil_append]
    exact List.map_congr_left (fun f hf => by rw [hrt f hf])
  unfold default_hash_operations.hget_batch
  rw [hsm, hconn]
  simp only []
  rw [hfold]

/-- Witness for `typed_hget_batch_cardinality`: two distinct whitespace-free
fields under the identity serializer pair, against the empty store, give
exactly two explicitly absent entries. -/
theorem typed_hget_batch_cardinality_witness :
    default_hash_operations.hget_batch (K := CppString) (V := CppString) id id id
        (fun _ => none) [[97], [98]]
      = .ok [([97], none), ([98], none)] :=
  typed_hget_batch_cardinality id id id (fun _ => none) [[97], [98]]
    (by decide) (fun f _ => rfl)
